import Mathlib

/-
Verification of the "ML on the Fly" dynamic model generation and repair
pipeline (src/ml-on-the-fly and src/tools/interactive_ml_pipeline.py).

The Python source is shallowly embedded: the candidate source strings the
validator inspects are represented by their parse results (a small AST of
class and function definitions), pandas dataframes by a record of columns
with rational-valued cells, and the external collaborators (the two LLM
providers, the generated model object's runtime behaviour, the sklearn
metric functions called for the metric sanity check) by explicit oracles
passed as arguments, mirroring exactly where the repository's own code
branches on their results.
-/

namespace AgentEngine

/-- A Python statement, restricted to the shape the repository's static
validator (`ModelGenerator._validate_code_structure`) inspects with
`ast.walk`: class definitions, function definitions (each with a body of
further statements), and anything else (`other`). -/
inductive PyStmt : Type where
  | classDef (name : String) (body : List PyStmt)
  | funcDef (name : String) (body : List PyStmt)
  | other

/-- The direct child statements of a node, as `ast.iter_child_nodes` yields
them for the nodes we model. -/
def childStmts : PyStmt → List PyStmt
  | .classDef _ body => body
  | .funcDef _ body => body
  | .other => []

/-- Breadth-first traversal of a statement forest, mirroring `ast.walk`:
a FIFO queue, popping the front node, yielding it and appending its
children at the back. (`ast.walk` additionally yields the `Module` node
first; it is never a `ClassDef`, so dropping it changes nothing the
validator observes.) -/
def walkQueue : List PyStmt → List PyStmt
  | [] => []
  | s :: rest => s :: walkQueue (rest ++ childStmts s)
termination_by q => sizeOf q
decreasing_by
  have happ : ∀ (a b : List PyStmt), sizeOf (a ++ b) + 1 = sizeOf a + sizeOf b := by
    intro a b
    induction a with
    | nil => simp only [List.nil_append, List.nil.sizeOf_spec]; omega
    | cons x xs ih => simp only [List.cons_append, List.cons.sizeOf_spec]; omega
  have hchild : sizeOf (childStmts s) ≤ sizeOf s := by
    cases s <;> simp [childStmts]
  have := happ rest (childStmts s)
  simp only [List.cons.sizeOf_spec]
  omega

/-- Insert into a sorted list (helper of the sort used to model Python's
`sorted`). -/
def insertLe {α : Type} (le : α → α → Bool) (a : α) : List α → List α
  | [] => [a]
  | b :: rest => if le a b then a :: b :: rest else b :: insertLe le a rest

/-- Insertion sort modelling Python's `sorted`: a stable comparison sort
(on the duplicate-free lists it is applied to here, any correct sort
produces the same output). -/
def sortLe {α : Type} (le : α → α → Bool) : List α → List α
  | [] => []
  | a :: rest => insertLe le a (sortLe le rest)

/-- The required method names of the generated class, as the constant
`self.required_methods` in `ModelGenerator.__init__`. -/
def requiredMethods : List String :=
  ["__init__", "fit_preprocessing", "preprocess_data", "train",
   "predict", "evaluate", "get_feature_importance"]

/-- Match one walked node against `isinstance(node, ast.ClassDef) and
node.name == "DynamicModel"`, yielding the class body. -/
def classBodyOf : PyStmt → Option (List PyStmt)
  | .classDef n body => if n = "DynamicModel" then some body else none
  | _ => none

/-- The body of the first `DynamicModel` class definition in `ast.walk`
order (the loop in `_validate_code_structure` breaks at the first match). -/
def findDynamicModel (stmts : List PyStmt) : Option (List PyStmt) :=
  (walkQueue stmts).findSome? classBodyOf

/-- The names of the method-like declarations directly inside a class body
(`for item in node.body: if isinstance(item, ast.FunctionDef)`). -/
def presentMethods : List PyStmt → List String
  | [] => []
  | .funcDef n _ :: rest => n :: presentMethods rest
  | _ :: rest => presentMethods rest

/-- The missing required methods, as `sorted(list(set(self.required_methods)
- present_methods))`: the required names not present, in Python's
lexicographic string order. -/
def missingMethodsOf (body : List PyStmt) : List String :=
  sortLe (fun a b => decide (a ≤ b))
    (requiredMethods.filter (fun m => !((presentMethods body).contains m)))

/-- The parse outcome of a candidate source string: either a syntax error
(carrying the formatted message `_validate_code_structure` builds from the
parser's message, line, offset and text) or the parsed statement list. -/
inductive PyParse : Type where
  | synErr (msg : String)
  | parsed (stmts : List PyStmt)

/-- `ModelGenerator._validate_code_structure`: `None` (valid) or an error
message. Syntax errors surface the parser's message; a missing
`DynamicModel` class and missing required methods each produce their fixed
message, the latter listing every missing name, sorted and comma-joined.
This is a pure function of the parse result: no candidate code runs. -/
def validate_code_structure (code : PyParse) : Option String :=
  match code with
  | .synErr msg => some msg
  | .parsed stmts =>
    match findDynamicModel stmts with
    | none => some "DynamicModel class definition not found."
    | some body =>
      let missing := missingMethodsOf body
      if missing.isEmpty then none
      else
        some ("DynamicModel class is missing required methods: "
          ++ String.intercalate ", " missing)

/-- The names bound at the top level of the module namespace after
`exec(model_code, module.__dict__)`: top-level class and function
definitions (nested definitions bind only inside their enclosing scope). -/
def topLevelNames : List PyStmt → List String
  | [] => []
  | .classDef n _ :: rest => n :: topLevelNames rest
  | .funcDef n _ :: rest => n :: topLevelNames rest
  | .other :: rest => topLevelNames rest

/-- A live Python object, abstracted to what `instantiate_model` inspects:
for each attribute name, whether it exists and whether it is callable
(`attrs` maps an existing attribute name to its callability; an absent
name models a missing attribute). -/
structure PyObject : Type where
  attrs : List (String × Bool)
deriving DecidableEq

/-- `hasattr(obj, m) and callable(getattr(obj, m))`. -/
def hasCallableAttr (o : PyObject) (name : String) : Bool :=
  match o.attrs.lookup name with
  | some c => c
  | none => false

/-- The first required method the instantiated object violates, in
`required_methods` order: the loop in `instantiate_model` raises at the
first name that is missing or not callable. -/
def firstContractViolation (o : PyObject) : Option String :=
  requiredMethods.findSome?
    (fun m => if hasCallableAttr o m then none else some m)

/-- `ModelGenerator.instantiate_model` after `_final_code_verification`
has passed (theorems about it carry the hypothesis that the candidate
validates; the refinement round taken when that final verification fails
goes back through the generation orchestrator and is modelled there).
The executed module namespace must expose a top-level `DynamicModel`;
the instantiated object (`inst`, supplied by the execution oracle since
its runtime attributes are not statically determined) is then checked
against the required contract, raising at the first violation found. -/
def instantiate_model (pymod : List PyStmt) (inst : PyObject) :
    Except String PyObject :=
  if (topLevelNames pymod).contains "DynamicModel" then
    match firstContractViolation inst with
    | some m =>
      .error ("Instantiated model is missing required method or it's not callable: " ++ m)
    | none => .ok inst
  else
    .error "Generated code does not contain a DynamicModel class after execution."

/-- A fallible Python call: either the exception's message (`err`) or the
returned value (`ok`). -/
inductive Res (α : Type) : Type where
  | err (msg : String)
  | ok (val : α)
deriving DecidableEq

/-- One column of a loaded pandas dataframe, abstracted to what the claims
touch: its name, whether its dtype is numeric (`np.issubdtype(dtype,
np.number)`), and its cell values (abstracted to rationals; categorical
values are represented by arbitrary distinct codes since only equality of
cells is ever inspected). -/
structure Column : Type where
  name : String
  numeric : Bool
  values : List ℚ
deriving DecidableEq

/-- A loaded dataframe: its columns and its row count (`df.shape`). -/
structure DataFrame : Type where
  cols : List Column
  nRows : Nat
deriving DecidableEq

/-- The data summary built by `CSVHandler._analyze_data`. The per-column
advisory metadata it also stores (dtypes, null counts, numeric stats, top
categorical values) feeds only the prompt text and is not inspected by any
claim, so the model keeps the structural fields. -/
structure DataSummary : Type where
  num_rows : Nat
  num_cols : Nat
  columns : List String
deriving DecidableEq

/-- `CSVHandler._analyze_data` on a loaded dataframe. -/
def analyzeData (df : DataFrame) : DataSummary :=
  { num_rows := df.nRows
    num_cols := df.cols.length
    columns := df.cols.map Column.name }

/-- The mutable state of a `CSVHandler`: the loaded dataframe and the
stored summary, both `None` until a load succeeds. -/
structure CSVState : Type where
  df : Option DataFrame
  data_summary : Option DataSummary
deriving DecidableEq

/-- A fresh `CSVHandler`. -/
def initCSV : CSVState := ⟨none, none⟩

/-- `CSVHandler.load_csv`: the input is represented by its parse outcome
(`none` when `pd.read_csv` raises, `some df` when it parses — a header-only
file parses to a dataframe with zero rows). On a parse failure the
exception is caught before `self.df` is assigned, so the stored state is
unchanged and `False` is returned; on success the dataframe and its fresh
summary are stored and `True` is returned. -/
def load_csv (s : CSVState) (parsedInput : Option DataFrame) : CSVState × Bool :=
  match parsedInput with
  | none => (s, false)
  | some df => ({ df := some df, data_summary := some (analyzeData df) }, true)

/-- Find a dataframe column by name (`target_column in self.df.columns`
and `self.df[target_column]`). -/
def findCol (df : DataFrame) (name : String) : Option Column :=
  df.cols.find? (fun c => c.name == name)

/-- Number of distinct values of a column (`len(target.unique())`). -/
def nUnique (c : Column) : Nat := c.values.dedup.length

/-- `CSVHandler.suggest_problem_type`: `"unknown"` without a dataframe or
when the column is absent; for a numeric target, `"classification"` when it
has fewer than 10 distinct values and `"regression"` otherwise; and
`"classification"` for every non-numeric target. -/
def suggest_problem_type (odf : Option DataFrame) (target : String) : String :=
  match odf with
  | none => "unknown"
  | some df =>
    match findCol df target with
    | none => "unknown"
    | some col =>
      if col.numeric then
        if nUnique col < 10 then "classification" else "regression"
      else "classification"

/-- A metric value in an evaluation dictionary: a plain number, the square
root of a number (how `np.sqrt(mean_squared_error(...))` is represented so
the model stays within the rationals), or a non-numeric value (a string:
`isinstance(value, (int, float))` is false for it). -/
inductive MetricVal : Type where
  | num (q : ℚ)
  | sqrtNum (q : ℚ)
  | str (s : String)
deriving DecidableEq

/-- Whether `isinstance(value, (int, float))` holds for a metric value. -/
def MetricVal.isNum : MetricVal → Bool
  | .num _ => true
  | .sqrtNum _ => true
  | .str _ => false

/-- Whether `value == 1.0` holds for a metric value (the square root of q
equals 1.0 exactly when q does). -/
def MetricVal.eqOne : MetricVal → Bool
  | .num q => q == 1
  | .sqrtNum q => q == 1
  | .str _ => false

/-- A metrics dictionary, as an association list. -/
abbrev Metrics := List (String × MetricVal)

/-- `all(value == 1.0 for value in metrics.values() if isinstance(value,
(int, float)))`: every numeric value equals exactly 1.0 (vacuously true
when no value is numeric). -/
def allPerfect (ms : Metrics) : Bool :=
  ms.all (fun p => !p.2.isNum || p.2.eqOne)

/-- `sklearn.metrics.accuracy_score`: the fraction of positions where the
prediction equals the ground truth. -/
def accuracy_score (y yp : List ℚ) : ℚ :=
  if y.length = 0 then 0
  else ((y.zip yp).countP (fun p => p.1 == p.2) : ℚ) / (y.length : ℚ)

/-- The sorted distinct labels of ground truth and predictions
(`sklearn.utils.multiclass.unique_labels(y_true, y_pred)`). -/
def classLabels (y yp : List ℚ) : List ℚ :=
  sortLe (fun a b => decide (a ≤ b)) ((y ++ yp).dedup)

/-- True positives for one label. -/
def tpCount (y yp : List ℚ) (l : ℚ) : Nat :=
  (y.zip yp).countP (fun p => p.1 == l && p.2 == l)

/-- Per-label precision, with sklearn's `zero_division` default of 0. -/
def precisionOf (y yp : List ℚ) (l : ℚ) : ℚ :=
  if yp.count l = 0 then 0 else (tpCount y yp l : ℚ) / (yp.count l : ℚ)

/-- Per-label recall, with sklearn's `zero_division` default of 0. -/
def recallOf (y yp : List ℚ) (l : ℚ) : ℚ :=
  if y.count l = 0 then 0 else (tpCount y yp l : ℚ) / (y.count l : ℚ)

/-- Per-label F1: the harmonic mean of precision and recall (0 when both
vanish). -/
def f1Of (y yp : List ℚ) (l : ℚ) : ℚ :=
  let p := precisionOf y yp l
  let r := recallOf y yp l
  if p + r = 0 then 0 else 2 * p * r / (p + r)

/-- Support-weighted average of a per-label metric
(`average='weighted'`: each label weighted by its count in `y_true`). -/
def weightedAvg (y yp : List ℚ) (f : List ℚ → List ℚ → ℚ → ℚ) : ℚ :=
  if y.length = 0 then 0
  else ((classLabels y yp).map (fun l => f y yp l * (y.count l : ℚ))).sum / (y.length : ℚ)

/-- `precision_score(y, y_pred, average='weighted')`. -/
def precision_score_weighted (y yp : List ℚ) : ℚ := weightedAvg y yp precisionOf

/-- `recall_score(y, y_pred, average='weighted')`. -/
def recall_score_weighted (y yp : List ℚ) : ℚ := weightedAvg y yp recallOf

/-- `f1_score(y, y_pred, average='weighted')`. -/
def f1_score_weighted (y yp : List ℚ) : ℚ := weightedAvg y yp f1Of

/-- `sklearn.metrics.mean_squared_error`. -/
def mean_squared_error (y yp : List ℚ) : ℚ :=
  if y.length = 0 then 0
  else ((y.zip yp).map (fun p => (p.1 - p.2) ^ 2)).sum / (y.length : ℚ)

/-- `sklearn.metrics.mean_absolute_error`. -/
def mean_absolute_error (y yp : List ℚ) : ℚ :=
  if y.length = 0 then 0
  else ((y.zip yp).map (fun p => |p.1 - p.2|)).sum / (y.length : ℚ)

/-- `sklearn.metrics.r2_score`: `1 - ss_res / ss_tot`, with sklearn's
conventions when the total sum of squares vanishes (1.0 when the residual
sum also vanishes, 0.0 otherwise). -/
def r2_score (y yp : List ℚ) : ℚ :=
  if y.length = 0 then 0
  else
    let ybar := y.sum / (y.length : ℚ)
    let ssRes := ((y.zip yp).map (fun p => (p.1 - p.2) ^ 2)).sum
    let ssTot := (y.map (fun v => (v - ybar) ^ 2)).sum
    if ssTot == 0 then (if ssRes == 0 then 1 else 0) else 1 - ssRes / ssTot

/-- The metrics the interactive pipeline's `train_model` recomputes from
raw predictions when the evaluate stage returned suspiciously perfect
scores: the classification quadruple when `self.problem_type ==
"classification"`, the regression quadruple otherwise. -/
def sanityMetrics (problem_type : Option String) (y yp : List ℚ) : Metrics :=
  if problem_type == some "classification" then
    [("accuracy", .num (accuracy_score y yp)),
     ("f1_score", .num (f1_score_weighted y yp)),
     ("precision", .num (precision_score_weighted y yp)),
     ("recall", .num (recall_score_weighted y yp))]
  else
    [("mse", .num (mean_squared_error y yp)),
     ("rmse", .sqrtNum (mean_squared_error y yp)),
     ("mae", .num (mean_absolute_error y yp)),
     ("r2", .num (r2_score y yp))]

/-- The per-call behaviour of the generated model object during one
`train_model` run: whether each lifecycle stage raises (and with what
message), what `evaluate`, `get_feature_importance` and `predict` return.
The generated code is untrusted and external, so its behaviour is an
oracle; the harness's own control flow branches only on these outcomes. -/
structure DynOutcome : Type where
  fitErr : Option String
  transformErr : Option String
  trainErr : Option String
  evalRes : Res Metrics
  featRes : Res Metrics
  predictRes : Res (List ℚ)

/-- The training summary stored on success (`self.training_summary`). -/
structure TrainingSummary : Type where
  metrics : Metrics
  feature_importance : Metrics
deriving DecidableEq

/-- The mutable state of an `MLService` instance (identical field-for-field
in `ml_service.py` and in `interactive_ml_pipeline.py`; `model_source` is
omitted: no claim reads it). -/
structure MLState : Type where
  csv : CSVState
  dynamic_model : Option PyObject
  model_code : Option (List PyStmt)
  target_column : Option String
  problem_type : Option String
  is_trained : Bool
  training_summary : Option TrainingSummary

/-- A fresh `MLService`. -/
def initMLState : MLState :=
  { csv := initCSV
    dynamic_model := none
    model_code := none
    target_column := none
    problem_type := none
    is_trained := false
    training_summary := none }

/-- `MLService.process_csv`: loads via the CSV handler; on handler failure
the service reports the fixed error and the stored state is unchanged. -/
def process_csv (s : MLState) (parsedInput : Option DataFrame) :
    MLState × Res DataSummary :=
  let r := load_csv s.csv parsedInput
  match r.1.data_summary, r.2 with
  | some ds, true => ({ s with csv := r.1 }, .ok ds)
  | _, _ => ({ s with csv := r.1 }, .err "Failed to load CSV file")

/-- `MLService.select_target_column`: without a loaded dataframe or when
the named column is absent, fails leaving the stored fields untouched;
otherwise stores the target column and the suggested problem type and
returns both. -/
def select_target_column (s : MLState) (t : String) :
    MLState × Res (String × String) :=
  match s.csv.df with
  | none => (s, .err "No data loaded. Please upload a CSV file first.")
  | some df =>
    match findCol df t with
    | none => (s, .err ("Column '" ++ t ++ "' not found in the dataset"))
    | some _ =>
      let pt := suggest_problem_type (some df) t
      ({ s with target_column := some t, problem_type := some pt },
       .ok (t, pt))

/-- `MLService.generate_model self.problem_type` untouched branch aside:
guards for a loaded dataframe and a selected target, then runs the
generation orchestrator, instantiation and (on instantiation failure) one
refinement round — that whole external pipeline is the `gen` oracle, whose
success carries the accepted code and the instantiated object. It never
touches `is_trained`. -/
def generate_model (s : MLState) (gen : Res (List PyStmt × PyObject)) :
    MLState × Res Unit :=
  match s.csv.df with
  | none => (s, .err "No data loaded. Please upload a CSV file first.")
  | some _ =>
    match s.target_column with
    | none => (s, .err "Target column not set. Please select a target column first.")
    | some _ =>
      match gen with
      | .ok cg =>
        ({ s with model_code := some cg.1, dynamic_model := some cg.2 }, .ok ())
      | .err e => (s, .err e)

/-- The methods `train_model` itself re-verifies on the object before the
pipeline runs (note: a shorter list than the generator's contract). -/
def trainRequiredMethods : List String :=
  ["fit_preprocessing", "preprocess_data", "train", "evaluate", "predict"]

/-- The method names `train_model`'s pre-check collects as missing. -/
def trainMissingMethods (obj : PyObject) : List String :=
  trainRequiredMethods.filter (fun m => !hasCallableAttr obj m)

/-- `MLService.train_model` from `ml_service.py`: guards (data loaded,
target set, model generated, target present in the dataframe, required
methods callable), then the five-stage pipeline with per-stage error
capture. The evaluate stage stores whatever metrics dictionary the
generated model returned — this implementation has no metric sanity
check. Every failure path returns before any state field is written;
only full success sets `is_trained` and `training_summary`. -/
def MLService.train_model (s : MLState) (o : DynOutcome) :
    MLState × Res TrainingSummary :=
  match s.csv.df with
  | none => (s, .err "No data loaded. Please upload a CSV file first.")
  | some df =>
    match s.target_column with
    | none => (s, .err "Target column not set. Please select a target column first.")
    | some t =>
      match s.dynamic_model with
      | none => (s, .err "Model not generated. Please generate a model first.")
      | some obj =>
        match findCol df t with
        | none => (s, .err ("Target column '" ++ t ++ "' not found in dataframe"))
        | some _ =>
          if !(trainMissingMethods obj).isEmpty then
            (s, .err ("Model is missing required methods: "
              ++ String.intercalate ", " (trainMissingMethods obj)))
          else
            match o.fitErr with
            | some e => (s, .err ("Error during preprocessing fit: " ++ e))
            | none =>
              match o.transformErr with
              | some e => (s, .err ("Error during data preprocessing: " ++ e))
              | none =>
                match o.trainErr with
                | some e => (s, .err ("Error during model training: " ++ e))
                | none =>
                  match o.evalRes with
                  | .err e => (s, .err ("Error during evaluation: " ++ e))
                  | .ok metrics =>
                    let fi :=
                      match o.featRes with
                      | .ok f => f
                      | .err e =>
                        [("warning", .str ("Feature importance not available: " ++ e))]
                    let summary : TrainingSummary := ⟨metrics, fi⟩
                    ({ s with is_trained := true, training_summary := some summary },
                     .ok summary)

/-- The metrics the interactive pipeline's `train_model` ends its evaluate
stage with: when every numeric metric equals exactly 1.0 and the
dictionary is non-empty, it recomputes the metrics from raw predictions
(`self.dynamic_model.predict(X_processed)`) with the fixed sklearn
formulas and uses those instead; if that verification call itself raises,
or the dictionary is empty or not all-perfect, the original metrics
stand. -/
def pipelineEvalMetrics (problem_type : Option String) (y : List ℚ)
    (metrics : Metrics) (predictRes : Res (List ℚ)) : Metrics :=
  let all_perfect := allPerfect metrics
  if all_perfect && !metrics.isEmpty then
    match predictRes with
    | .ok yp => if all_perfect then sanityMetrics problem_type y yp else metrics
    | .err _ => metrics
  else metrics

/-- `MLService.train_model` from `interactive_ml_pipeline.py`: identical
to the `ml_service.py` implementation except that the evaluate stage runs
the metric sanity check (`pipelineEvalMetrics`) before the summary is
stored. `y` is the target column of the feature/target split. -/
def Pipeline.train_model (s : MLState) (o : DynOutcome) :
    MLState × Res TrainingSummary :=
  match s.csv.df with
  | none => (s, .err "No data loaded. Please upload a CSV file first.")
  | some df =>
    match s.target_column with
    | none => (s, .err "Target column not set. Please select a target column first.")
    | some t =>
      match s.dynamic_model with
      | none => (s, .err "Model not generated. Please generate a model first.")
      | some obj =>
        match findCol df t with
        | none => (s, .err ("Target column '" ++ t ++ "' not found in dataframe"))
        | some tcol =>
          if !(trainMissingMethods obj).isEmpty then
            (s, .err ("Model is missing required methods: "
              ++ String.intercalate ", " (trainMissingMethods obj)))
          else
            match o.fitErr with
            | some e => (s, .err ("Error during preprocessing fit: " ++ e))
            | none =>
              match o.transformErr with
              | some e => (s, .err ("Error during data preprocessing: " ++ e))
              | none =>
                match o.trainErr with
                | some e => (s, .err ("Error during model training: " ++ e))
                | none =>
                  match o.evalRes with
                  | .err e => (s, .err ("Error during evaluation: " ++ e))
                  | .ok metrics0 =>
                    let metrics :=
                      pipelineEvalMetrics s.problem_type tcol.values metrics0 o.predictRes
                    let fi :=
                      match o.featRes with
                      | .ok f => f
                      | .err e =>
                        [("warning", .str ("Feature importance not available: " ++ e))]
                    let summary : TrainingSummary := ⟨metrics, fi⟩
                    ({ s with is_trained := true, training_summary := some summary },
                     .ok summary)

/-- `MLService.predict`: before anything else, `if not self.is_trained`
fails with the fixed not-trained error; only then does the generated
model's preprocess/predict run (its outcome is the oracle `run`). -/
def MLService.predict (s : MLState) (run : Res (List ℚ)) : Res (List ℚ) :=
  if s.is_trained then
    match run with
    | .ok arr => .ok arr
    | .err e => .err e
  else .err "Model not trained. Please train the model first."

/-- One external call to an `MLService` session, with the oracle outcomes
of its external collaborators attached. -/
inductive MLOp : Type where
  | processCsv (parsedInput : Option DataFrame)
  | selectTarget (t : String)
  | generateModel (gen : Res (List PyStmt × PyObject))
  | trainModel (o : DynOutcome)

/-- The state transition of one call. -/
def stepOp (s : MLState) (op : MLOp) : MLState :=
  match op with
  | .processCsv p => (process_csv s p).1
  | .selectTarget t => (select_target_column s t).1
  | .generateModel g => (generate_model s g).1
  | .trainModel o => (MLService.train_model s o).1

/-- The state after a sequence of calls. -/
def runOps (s : MLState) (ops : List MLOp) : MLState := ops.foldl stepOp s

/-- Whether a call is a `train_model` invocation whose train stage runs to
success in state `s`: all guards pass and the fit-preprocessing, transform
and train stages all complete without raising. -/
def trainStageSucceeded (s : MLState) (op : MLOp) : Bool :=
  match op with
  | .trainModel o =>
    match s.csv.df, s.target_column, s.dynamic_model with
    | some df, some t, some obj =>
      (findCol df t).isSome && (trainMissingMethods obj).isEmpty
        && o.fitErr.isNone && o.transformErr.isNone && o.trainErr.isNone
    | _, _, _ => false
  | _ => false

/-- Whether any call of the sequence runs the train stage to success. -/
def anyTrainSuccess : MLState → List MLOp → Bool
  | _, [] => false
  | s, op :: rest => trainStageSucceeded s op || anyTrainSuccess (stepOp s op) rest

/-- The refinement bookkeeping carried across attempts of
`_attempt_code_generation_and_validation`: whether the next prompt is a
refinement, and the candidate and validator reason it is seeded with. -/
structure RefState : Type where
  isRefinement : Bool
  origCode : PyParse
  errMsg : String

/-- What one round (one iteration of the `for attempt in range(...)` loop)
did: whether the primary provider call raised, whether it instead returned
a candidate that failed structural validation, and whether the fallback
provider was invoked in that round. -/
structure RoundLog : Type where
  claudeRaised : Bool
  claudeInvalid : Bool
  geminiInvoked : Bool
deriving DecidableEq

/-- The outcome of a whole `_attempt_code_generation_and_validation` run:
the returned `(code, model_name)` pair or the raised exhaustion message,
together with how many calls went to each provider and the per-round log. -/
structure GenRun : Type where
  result : Res (PyParse × String)
  claudeCalls : Nat
  geminiCalls : Nat
  rounds : List RoundLog

/-- The retry loop of `_attempt_code_generation_and_validation`, mirrored
iteration by iteration. The providers are external: `claude i` (resp.
`gemini i`) is what the i-th call to the primary (resp. fallback) provider
does — raise with a message, or return text whose parse is the given
`PyParse`. Control flow of one iteration, exactly as in the source: the
primary is called with the refinement prompt when `isRefinement` holds,
the plain prompt otherwise. A structurally valid candidate returns at
once. An invalid candidate from a non-refinement call stores the candidate
and reason, switches to refinement mode and `continue`s — the fallback is
NOT involved, since `use_gemini_fallback` is set only inside the `except`
handler. An invalid candidate from a refinement call falls through to the
next round with the stored candidate and reason unchanged. Only when the
primary call raises is the fallback called (same prompt policy); its valid
candidate returns, its invalid candidate updates the refinement state
exactly as the primary's would, and its exception falls through to the
next round. Exhausting `maxRetries` rounds raises the fixed message. -/
def attemptLoop (claude gemini : Nat → Res PyParse) (maxRetries : Nat) :
    Nat → RefState → Nat → Nat → List RoundLog → GenRun
  | 0, _, cc, gc, log =>
    ⟨.err ("Failed to generate valid code after "
        ++ toString maxRetries ++ " attempts."), cc, gc, log⟩
  | remaining + 1, st, cc, gc, log =>
    match claude cc with
    | .ok code =>
      match validate_code_structure code with
      | none =>
        ⟨.ok (code, "claude-3-7-sonnet-latest"), cc + 1, gc,
         log ++ [⟨false, false, false⟩]⟩
      | some verr =>
        if st.isRefinement then
          attemptLoop claude gemini maxRetries remaining st (cc + 1) gc
            (log ++ [⟨false, true, false⟩])
        else
          attemptLoop claude gemini maxRetries remaining ⟨true, code, verr⟩ (cc + 1) gc
            (log ++ [⟨false, true, false⟩])
    | .err _ =>
      match gemini gc with
      | .ok gcode =>
        match validate_code_structure gcode with
        | none =>
          ⟨.ok (gcode, "gemini-1.5-pro"), cc + 1, gc + 1,
           log ++ [⟨true, false, true⟩]⟩
        | some verr =>
          if st.isRefinement then
            attemptLoop claude gemini maxRetries remaining st (cc + 1) (gc + 1)
              (log ++ [⟨true, false, true⟩])
          else
            attemptLoop claude gemini maxRetries remaining ⟨true, gcode, verr⟩
              (cc + 1) (gc + 1) (log ++ [⟨true, false, true⟩])
      | .err _ =>
        attemptLoop claude gemini maxRetries remaining st (cc + 1) (gc + 1)
          (log ++ [⟨true, false, true⟩])

/-- `_attempt_code_generation_and_validation` entry point: `maxRetries`
rounds starting from the given refinement flag and seed (the initial
generation call passes `is_refinement=False` with empty seed code and
reason; `refine_model_code` passes `is_refinement=True` with the flawed
code and its error). -/
def attempt_code_generation_and_validation
    (claude gemini : Nat → Res PyParse) (maxRetries : Nat)
    (isRefinement : Bool) (origCode : PyParse) (errMsg : String) : GenRun :=
  attemptLoop claude gemini maxRetries maxRetries ⟨isRefinement, origCode, errMsg⟩ 0 0 []

/-- Concrete fixture: a `DynamicModel` class body containing every required
method, each with a body that immediately raises (`other` covers a bare
`raise` statement). -/
def fullClassBody : List PyStmt :=
  [.funcDef "__init__" [.other],
   .funcDef "fit_preprocessing" [.other],
   .funcDef "preprocess_data" [.other],
   .funcDef "train" [.other],
   .funcDef "predict" [.other],
   .funcDef "evaluate" [.other],
   .funcDef "get_feature_importance" [.other]]

/-- Concrete fixture: a module declaring `DynamicModel` at top level with
the full contract. -/
def validMod : List PyStmt := [.classDef "DynamicModel" fullClassBody]

/-- Concrete fixture: a module whose `DynamicModel` (with full contract)
is declared nested inside another class, so executing the module binds
only `Outer` at top level. -/
def nestedMod : List PyStmt :=
  [.classDef "Outer" [.classDef "DynamicModel" fullClassBody]]

/-- Concrete fixture: a `DynamicModel` class body missing both `train` and
`evaluate`. -/
def partialClassBody : List PyStmt :=
  [.funcDef "__init__" [.other],
   .funcDef "fit_preprocessing" [.other],
   .funcDef "preprocess_data" [.other],
   .funcDef "predict" [.other],
   .funcDef "get_feature_importance" [.other]]

/-- Concrete fixture: a module declaring `DynamicModel` missing `train`
and `evaluate`. -/
def partialMod : List PyStmt := [.classDef "DynamicModel" partialClassBody]

/-- Concrete fixture: an instantiated object with every required method
callable. -/
def objAllGood : PyObject :=
  ⟨[("__init__", true), ("fit_preprocessing", true), ("preprocess_data", true),
    ("train", true), ("predict", true), ("evaluate", true),
    ("get_feature_importance", true)]⟩

/-- Concrete fixture: an instantiated object with no `train` attribute at
all and a non-callable `evaluate` attribute — two contract violations. -/
def objTwoViolations : PyObject :=
  ⟨[("__init__", true), ("fit_preprocessing", true), ("preprocess_data", true),
    ("predict", true), ("evaluate", false), ("get_feature_importance", true)]⟩

/-- Concrete fixture: a two-column dataframe with two rows; `label` is a
numeric column with two distinct values. -/
def csvTwo : DataFrame :=
  ⟨[⟨"x", true, [0, 1]⟩, ⟨"label", true, [0, 1]⟩], 2⟩

/-- Concrete fixture: a dataframe that parsed to zero rows (a header-only
CSV: two columns, no data). -/
def csvEmpty : DataFrame := ⟨[⟨"a", true, []⟩, ⟨"b", true, []⟩], 0⟩

/-- Concrete fixture: a service state ready to train — CSV loaded, target
`label` selected (a classification problem), model generated with every
method callable. -/
def sReady : MLState :=
  { csv := ⟨some csvTwo, some (analyzeData csvTwo)⟩
    dynamic_model := some objAllGood
    model_code := some validMod
    target_column := some "label"
    problem_type := some "classification"
    is_trained := false
    training_summary := none }

/-- Concrete fixture: a `train_model` run in which every stage succeeds
and the generated model's `evaluate` fabricates a single perfect metric,
while its raw predictions for the two rows are `[0, 0]` (the second one
wrong). -/
def oPerfect : DynOutcome :=
  { fitErr := none
    transformErr := none
    trainErr := none
    evalRes := .ok [("accuracy", .num 1)]
    featRes := .ok []
    predictRes := .ok [0, 0] }

/-- Concrete fixture: a `train_model` run in which fit-preprocessing and
transform both succeed but the train stage raises. -/
def oTrainFails : DynOutcome :=
  { fitErr := none
    transformErr := none
    trainErr := some "singular matrix"
    evalRes := .ok []
    featRes := .ok []
    predictRes := .ok [] }

/-- Concrete fixture: a primary-provider stub that never raises and always
returns code failing structural validation (an empty module: no
`DynamicModel` class). -/
def claudeAlwaysInvalid : Nat → Res PyParse := fun _ => .ok (.parsed [])

/-- Concrete fixture: a fallback-provider stub (never reached in the runs
that use it). -/
def geminiUnused : Nat → Res PyParse := fun _ => .err "unused"

/-- Concrete fixture: the run of the orchestrator on the always-invalid
primary stub, from a fresh (non-refinement) start with the default three
rounds. -/
def runAlwaysInvalid : GenRun :=
  attempt_code_generation_and_validation claudeAlwaysInvalid geminiUnused 3
    false (.parsed []) ""

theorem mem_insertLe {α : Type} (le : α → α → Bool) (a x : α) (l : List α) :
    x ∈ insertLe le a l ↔ x = a ∨ x ∈ l := by
  induction l with
  | nil => simp [insertLe]
  | cons b rest ih =>
    by_cases h : le a b = true
    · simp [insertLe, h]
    · simp only [insertLe, if_neg h, List.mem_cons, ih]
      tauto

theorem mem_sortLe {α : Type} (le : α → α → Bool) (x : α) (l : List α) :
    x ∈ sortLe le l ↔ x ∈ l := by
  induction l with
  | nil => simp [sortLe]
  | cons a rest ih => simp [sortLe, mem_insertLe, ih]

/-- C4 counterexample: a header-only CSV parses to a zero-row dataframe, and
`load_csv` then SUCCEEDS (returns `True`) with a stored summary reporting
zero rows; it does not fail, and no `EmptyDatasetError` exists anywhere in
the handler. This refutes the claim that a 0-row parse always fails. -/
theorem load_csv_zero_rows_succeeds :
    (load_csv initCSV (some csvEmpty)).2 = true
    ∧ (load_csv initCSV (some csvEmpty)).1.data_summary
        = some ⟨0, 2, ["a", "b"]⟩ := by
  constructor
  · rfl
  · simp [load_csv, initCSV, csvEmpty, analyzeData]

/-- C4 (amended): whenever the input parses (to any dataframe, including a
zero-row one) `load_csv` succeeds and the stored summary's row and column
counts match the dataframe exactly; whenever parsing fails, `load_csv`
returns `False` with the handler state unchanged, so no partial profile is
ever stored on failure. -/
theorem load_csv_profile_exact :
    (∀ (s : CSVState) (df : DataFrame),
      load_csv s (some df) = (⟨some df, some (analyzeData df)⟩, true)
      ∧ (analyzeData df).num_rows = df.nRows
      ∧ (analyzeData df).num_cols = df.cols.length)
    ∧ ∀ (s : CSVState), load_csv s none = (s, false) := by
  refine ⟨fun s df => ⟨rfl, rfl, rfl⟩, fun s => rfl⟩

/-- C6: whenever a candidate parses, declares the `DynamicModel` class and
misses at least one required method, the validator returns the invalid
message built from the full sorted list of missing methods, and that list
contains EVERY required method the class body lacks — not merely a
subset. -/
theorem validator_lists_all_missing (stmts body : List PyStmt)
    (hfind : findDynamicModel stmts = some body)
    (hmiss : missingMethodsOf body ≠ []) :
    validate_code_structure (.parsed stmts)
      = some ("DynamicModel class is missing required methods: "
          ++ String.intercalate ", " (missingMethodsOf body))
    ∧ ∀ m ∈ requiredMethods, (presentMethods body).contains m = false →
        m ∈ missingMethodsOf body := by
  constructor
  · have hne : (missingMethodsOf body).isEmpty = false := by
      simp [List.isEmpty_eq_false, hmiss]
    simp [validate_code_structure, hfind, hne]
  · intro m hm hnot
    unfold missingMethodsOf
    rw [mem_sortLe]
    rw [List.mem_filter]
    refine ⟨hm, ?_⟩
    rw [hnot]
    rfl

/-- C6 witness: a module whose `DynamicModel` lacks both `train` and
`evaluate` is rejected with a reason listing both names. -/
theorem validator_lists_all_missing_witness :
    validate_code_structure (.parsed partialMod)
      = some ("DynamicModel class is missing required methods: "
          ++ String.intercalate ", " (missingMethodsOf partialClassBody))
    ∧ "train" ∈ missingMethodsOf partialClassBody
    ∧ "evaluate" ∈ missingMethodsOf partialClassBody := by
  have hval : missingMethodsOf partialClassBody = ["evaluate", "train"] := by
    simp [missingMethodsOf, requiredMethods, presentMethods, partialClassBody,
      sortLe, insertLe]
    decide
  have h := validator_lists_all_missing partialMod partialClassBody
    (by simp [findDynamicModel, partialMod, walkQueue, classBodyOf, childStmts])
    (by rw [hval]; simp)
  exact ⟨h.1, h.2 "train" (by simp [requiredMethods]) (by rfl),
    h.2 "evaluate" (by simp [requiredMethods]) (by rfl)⟩

theorem validate_none_of_complete (stmts body : List PyStmt)
    (hfind : findDynamicModel stmts = some body)
    (hall : ∀ m ∈ requiredMethods, (presentMethods body).contains m = true) :
    validate_code_structure (.parsed stmts) = none := by
  have hfilter :
      requiredMethods.filter (fun m => !((presentMethods body).contains m)) = [] := by
    rw [List.filter_eq_nil_iff]
    intro a ha
    rw [hall a ha]
    simp
  have hmiss : missingMethodsOf body = [] := by
    unfold missingMethodsOf
    rw [hfilter]
    rfl
  simp [validate_code_structure, hfind, hmiss]

/-- C7: any parsed candidate whose `DynamicModel` class body declares every
required method is accepted, whatever the method bodies contain (they are
unconstrained here — a method that immediately raises still passes). The
validator is a pure function of the parse tree, so no candidate code is
ever executed by it. -/
theorem validator_accepts_complete_class (stmts body : List PyStmt)
    (hfind : findDynamicModel stmts = some body)
    (hall : ∀ m ∈ requiredMethods, (presentMethods body).contains m = true) :
    validate_code_structure (.parsed stmts) = none :=
  validate_none_of_complete stmts body hfind hall

/-- C7 witness: a module declaring `DynamicModel` with all seven required
methods, each of whose bodies immediately raises, passes validation. -/
theorem validator_accepts_complete_class_witness :
    validate_code_structure (.parsed validMod) = none :=
  validator_accepts_complete_class validMod fullClassBody
    (by simp [findDynamicModel, validMod, walkQueue, classBodyOf, childStmts])
    (by decide)

/-- C9: the static validator and the loader's live check disagree — a
module declaring a fully-equipped `DynamicModel` nested inside another
class passes `_validate_code_structure` (whose `ast.walk` finds the nested
class), yet `instantiate_model` raises for every instantiation outcome,
because executing the module binds only the outer class at top level, so
the module namespace has no `DynamicModel` attribute. -/
theorem validator_loader_disagree :
    validate_code_structure (.parsed nestedMod) = none
    ∧ ∀ (obj : PyObject),
        instantiate_model nestedMod obj
          = .error "Generated code does not contain a DynamicModel class after execution." := by
  constructor
  · have hfind : findDynamicModel nestedMod = some fullClassBody := by
      simp [findDynamicModel, nestedMod, walkQueue, classBodyOf, childStmts, fullClassBody]
    exact validate_none_of_complete nestedMod fullClassBody hfind (by decide)
  · intro obj
    simp [instantiate_model, nestedMod, topLevelNames]

/-- C10: `select_target_column` is atomic — every failure outcome (no
dataframe loaded, or the named column absent) leaves the whole service
state, in particular its stored `target_column` and `problem_type`,
unchanged; every success outcome stores exactly the requested column and
the value `suggest_problem_type` computes for it. -/
theorem select_target_column_atomic (s : MLState) (t : String) :
    (∀ e, (select_target_column s t).2 = .err e → (select_target_column s t).1 = s)
    ∧ ∀ p, (select_target_column s t).2 = .ok p →
        (select_target_column s t).1.target_column = some t
        ∧ (select_target_column s t).1.problem_type
            = some (suggest_problem_type s.csv.df t) := by
  cases hdf : s.csv.df with
  | none =>
    refine ⟨fun e _ => by simp [select_target_column, hdf], fun p hp => ?_⟩
    simp [select_target_column, hdf] at hp
  | some df =>
    cases hfc : findCol df t with
    | none =>
      refine ⟨fun e _ => by simp [select_target_column, hdf, hfc], fun p hp => ?_⟩
      simp [select_target_column, hdf, hfc] at hp
    | some c =>
      refine ⟨fun e he => ?_, fun p _ => ?_⟩
      · simp [select_target_column, hdf, hfc] at he
      · simp [select_target_column, hdf, hfc]

/-- C10 witness: on a fresh service (no dataframe) selection fails and the
state is untouched; on a loaded service selecting `label` succeeds and
stores the column together with its suggested problem type. -/
theorem select_target_column_atomic_witness :
    (select_target_column initMLState "label").1 = initMLState
    ∧ (select_target_column sReady "label").1.target_column = some "label"
    ∧ (select_target_column sReady "label").1.problem_type
        = some (suggest_problem_type sReady.csv.df "label") := by
  refine ⟨(select_target_column_atomic initMLState "label").1
    "No data loaded. Please upload a CSV file first." rfl, ?_⟩
  have h := (select_target_column_atomic sReady "label").2
    ("label", "classification")
    (by simp [select_target_column, sReady, findCol, csvTwo, suggest_problem_type, nUnique])
  exact h

set_option maxRecDepth 8192 in
/-- C3 counterexample: an instantiated object violating the contract at
BOTH `train` (attribute absent) and `evaluate` (attribute present but not
callable) makes the loader raise naming only `train` — the first violation
in `required_methods` order — and the raised message does not mention
`evaluate` at all, refuting the claim that all violations are named. -/
theorem loader_names_only_first_violation :
    instantiate_model validMod objTwoViolations
      = .error "Instantiated model is missing required method or it's not callable: train"
    ∧ ¬ List.IsInfix "evaluate".data
        ("Instantiated model is missing required method or it's not callable: train").data := by
  constructor
  · simp [instantiate_model, validMod, topLevelNames, firstContractViolation,
      requiredMethods, hasCallableAttr, objTwoViolations, List.lookup]
  · decide

/-- C3 (amended): when the executed module exposes a top-level
`DynamicModel` and the instantiated object satisfies the contract for
every method preceding `m` in `required_methods` order but violates it at
`m` (missing or not callable), `instantiate_model` raises the
contract-violation error naming exactly `m` — only the first violation
found, not all of them. -/
theorem loader_raises_at_first_violation (pymod : List PyStmt) (obj : PyObject)
    (pre post : List String) (m : String)
    (htop : (topLevelNames pymod).contains "DynamicModel" = true)
    (hsplit : requiredMethods = pre ++ m :: post)
    (hpre : ∀ m2 ∈ pre, hasCallableAttr obj m2 = true)
    (hm : hasCallableAttr obj m = false) :
    instantiate_model pymod obj
      = .error ("Instantiated model is missing required method or it's not callable: " ++ m) := by
  have hfind : firstContractViolation obj = some m := by
    unfold firstContractViolation
    rw [hsplit, List.findSome?_append]
    have hnone : pre.findSome?
        (fun x => if hasCallableAttr obj x then none else some x) = none := by
      rw [List.findSome?_eq_none_iff]
      intro x hx
      simp [hpre x hx]
    rw [hnone]
    simp [List.findSome?_cons, hm]
  unfold instantiate_model
  rw [htop]
  simp [hfind]

/-- C3 amended-claim witness: the doubly-violating object is rejected with
the message naming `train`, the first violating name. -/
theorem loader_raises_at_first_violation_witness :
    instantiate_model validMod objTwoViolations
      = .error ("Instantiated model is missing required method or it's not callable: "
          ++ "train") :=
  loader_raises_at_first_violation validMod objTwoViolations
    ["__init__", "fit_preprocessing", "preprocess_data"]
    ["predict", "evaluate", "get_feature_importance"] "train"
    (by rfl) (by rfl) (by decide) (by rfl)

theorem process_csv_preserves_is_trained (s : MLState) (p : Option DataFrame) :
    (process_csv s p).1.is_trained = s.is_trained := by
  cases p with
  | none =>
    cases hds : s.csv.data_summary <;>
      simp [process_csv, load_csv, hds]
  | some df => simp [process_csv, load_csv, analyzeData]

theorem stepOp_preserves_untrained (s : MLState) (op : MLOp)
    (h : s.is_trained = false) (hflag : trainStageSucceeded s op = false) :
    (stepOp s op).is_trained = false := by
  cases op with
  | processCsv p => rw [stepOp, process_csv_preserves_is_trained]; exact h
  | selectTarget t =>
    cases hdf : s.csv.df with
    | none => simp [stepOp, select_target_column, hdf, h]
    | some df =>
      cases hfc : findCol df t with
      | none => simp [stepOp, select_target_column, hdf, hfc, h]
      | some c => simp [stepOp, select_target_column, hdf, hfc, h]
  | generateModel g =>
    cases hdf : s.csv.df with
    | none => simp [stepOp, generate_model, hdf, h]
    | some df =>
      cases ht : s.target_column with
      | none => simp [stepOp, generate_model, hdf, ht, h]
      | some t =>
        cases g with
        | ok cg => simp [stepOp, generate_model, hdf, ht, h]
        | err e => simp [stepOp, generate_model, hdf, ht, h]
  | trainModel o =>
    cases hdf : s.csv.df with
    | none => simp [stepOp, MLService.train_model, hdf, h]
    | some df =>
      cases ht : s.target_column with
      | none => simp [stepOp, MLService.train_model, hdf, ht, h]
      | some t =>
        cases hdm : s.dynamic_model with
        | none => simp [stepOp, MLService.train_model, hdf, ht, hdm, h]
        | some obj =>
          cases hfc : findCol df t with
          | none => simp [stepOp, MLService.train_model, hdf, ht, hdm, hfc, h]
          | some c =>
            simp only [trainStageSucceeded, hdf, ht, hdm, hfc, Option.isSome_some,
              Bool.true_and, Bool.and_eq_false_imp, Bool.and_eq_false_iff] at hflag
            cases hme : (trainMissingMethods obj).isEmpty with
            | false =>
              simp [stepOp, MLService.train_model, hdf, ht, hdm, hfc, hme, h]
            | true =>
              cases hfe : o.fitErr with
              | some e => simp [stepOp, MLService.train_model, hdf, ht, hdm, hfc, hme, hfe, h]
              | none =>
                cases hte : o.transformErr with
                | some e =>
                  simp [stepOp, MLService.train_model, hdf, ht, hdm, hfc, hme, hfe, hte, h]
                | none =>
                  cases htr : o.trainErr with
                  | some e =>
                    simp [stepOp, MLService.train_model, hdf, ht, hdm, hfc, hme, hfe, hte, htr, h]
                  | none =>
                    exfalso
                    rw [hme, hfe, hte, htr] at hflag
                    simp at hflag

theorem runOps_untrained (ops : List MLOp) :
    ∀ s : MLState, s.is_trained = false → anyTrainSuccess s ops = false →
      (runOps s ops).is_trained = false := by
  induction ops with
  | nil => intro s h _; simpa [runOps] using h
  | cons op rest ih =>
    intro s h hflag
    rw [anyTrainSuccess] at hflag
    rw [Bool.or_eq_false_iff] at hflag
    have hstep := stepOp_preserves_untrained s op h hflag.1
    have : runOps s (op :: rest) = runOps (stepOp s op) rest := rfl
    rw [this]
    exact ih (stepOp s op) hstep hflag.2

/-- C8: starting from a fresh service session, after any sequence of calls
in which no `train_model` invocation ran its train stage to success (in
particular even when fit-preprocessing and transform succeeded but the
train stage raised), the service is still untrained and `predict` returns
the fixed not-trained error rather than a prediction. -/
theorem predict_before_train_fails (ops : List MLOp) (run : Res (List ℚ))
    (h : anyTrainSuccess initMLState ops = false) :
    (runOps initMLState ops).is_trained = false
    ∧ MLService.predict (runOps initMLState ops) run
        = .err "Model not trained. Please train the model first." := by
  have huntr := runOps_untrained ops initMLState rfl h
  exact ⟨huntr, by simp [MLService.predict, huntr]⟩

/-- C8 witness: load data, select the target, generate a model, then run a
training call whose fit and transform stages succeed but whose train stage
raises; `predict` afterwards fails with the not-trained error. -/
theorem predict_before_train_fails_witness :
    MLService.predict
        (runOps initMLState
          [.processCsv (some csvTwo), .selectTarget "label",
           .generateModel (.ok (validMod, objAllGood)), .trainModel oTrainFails])
        (.ok [0])
      = .err "Model not trained. Please train the model first." :=
  (predict_before_train_fails
    [.processCsv (some csvTwo), .selectTarget "label",
     .generateModel (.ok (validMod, objAllGood)), .trainModel oTrainFails]
    (.ok [0]) (by rfl)).2

theorem roundlog_append (log : List RoundLog) (e : RoundLog)
    (h : ∀ r ∈ log, r.geminiInvoked = r.claudeRaised)
    (he : e.geminiInvoked = e.claudeRaised) :
    ∀ r ∈ log ++ [e], r.geminiInvoked = r.claudeRaised := by
  intro r hr
  rcases List.mem_append.mp hr with h1 | h2
  · exact h r h1
  · rw [List.mem_singleton] at h2
    rw [h2]
    exact he

theorem attemptLoop_gemini_iff_raise (claude gemini : Nat → Res PyParse)
    (maxR : Nat) :
    ∀ (remaining : Nat) (st : RefState) (cc gc : Nat) (log : List RoundLog),
      (∀ r ∈ log, r.geminiInvoked = r.claudeRaised) →
      ∀ r ∈ (attemptLoop claude gemini maxR remaining st cc gc log).rounds,
        r.geminiInvoked = r.claudeRaised := by
  intro remaining
  induction remaining with
  | zero => intro st cc gc log hlog r hr; exact hlog r hr
  | succ n ih =>
    intro st cc gc log hlog r hr
    rw [attemptLoop] at hr
    cases hc : claude cc with
    | ok code =>
      simp only [hc] at hr
      cases hv : validate_code_structure code with
      | none =>
        simp only [hv] at hr
        exact roundlog_append log ⟨false, false, false⟩ hlog rfl r hr
      | some verr =>
        simp only [hv] at hr
        cases hsr : st.isRefinement with
        | true =>
          simp only [hsr, if_true] at hr
          exact ih st (cc + 1) gc (log ++ [⟨false, true, false⟩])
            (roundlog_append log ⟨false, true, false⟩ hlog rfl) r hr
        | false =>
          simp only [hsr, Bool.false_eq_true, if_false] at hr
          exact ih ⟨true, code, verr⟩ (cc + 1) gc (log ++ [⟨false, true, false⟩])
            (roundlog_append log ⟨false, true, false⟩ hlog rfl) r hr
    | err e =>
      simp only [hc] at hr
      cases hg : gemini gc with
      | ok gcode =>
        simp only [hg] at hr
        cases hv : validate_code_structure gcode with
        | none =>
          simp only [hv] at hr
          exact roundlog_append log ⟨true, false, true⟩ hlog rfl r hr
        | some verr =>
          simp only [hv] at hr
          cases hsr : st.isRefinement with
          | true =>
            simp only [hsr, if_true] at hr
            exact ih st (cc + 1) (gc + 1) (log ++ [⟨true, false, true⟩])
              (roundlog_append log ⟨true, false, true⟩ hlog rfl) r hr
          | false =>
            simp only [hsr, Bool.false_eq_true, if_false] at hr
            exact ih ⟨true, gcode, verr⟩ (cc + 1) (gc + 1) (log ++ [⟨true, false, true⟩])
              (roundlog_append log ⟨true, false, true⟩ hlog rfl) r hr
      | err e2 =>
        simp only [hg] at hr
        exact ih st (cc + 1) (gc + 1) (log ++ [⟨true, false, true⟩])
          (roundlog_append log ⟨true, false, true⟩ hlog rfl) r hr

/-- C1 (amended): in every round of the generation loop the fallback
provider is invoked exactly when the primary provider's call raised an
exception in that round — a candidate from the primary that merely fails
validation does NOT trigger the fallback in that round (the loop instead
switches to refinement mode, or simply consumes the round); and since each
round's log entry records a primary call made before any fallback
decision, the fallback is never tried first in a fresh round. -/
theorem fallback_iff_primary_raised (claude gemini : Nat → Res PyParse)
    (maxRetries : Nat) (isRef : Bool) (origCode : PyParse) (errMsg : String) :
    ∀ r ∈ (attempt_code_generation_and_validation
        claude gemini maxRetries isRef origCode errMsg).rounds,
      r.geminiInvoked = r.claudeRaised :=
  attemptLoop_gemini_iff_raise claude gemini maxRetries maxRetries
    ⟨isRef, origCode, errMsg⟩ 0 0 [] (by simp)

/-- C1 amended-claim witness: the invariant applied to the concrete
always-invalid run, at its first logged round. -/
theorem fallback_iff_primary_raised_witness :
    RoundLog.geminiInvoked ⟨false, true, false⟩
      = RoundLog.claudeRaised ⟨false, true, false⟩ :=
  fallback_iff_primary_raised claudeAlwaysInvalid geminiUnused 3 false
    (.parsed []) "" ⟨false, true, false⟩
    (by simp [attempt_code_generation_and_validation, attemptLoop,
      claudeAlwaysInvalid, validate_code_structure, findDynamicModel, walkQueue])

/-- C1 counterexample: in the concrete run whose primary provider returns
a validation-failing candidate in every round (and never raises), every
round logs the primary's candidate as invalid with the fallback NOT
invoked, and the fallback provider receives zero calls in the whole run —
refuting the claim that an `Invalid(reason)` from the primary triggers the
secondary within the same round. -/
theorem fallback_skipped_on_invalid :
    runAlwaysInvalid.rounds
      = [⟨false, true, false⟩, ⟨false, true, false⟩, ⟨false, true, false⟩]
    ∧ runAlwaysInvalid.geminiCalls = 0 := by
  constructor <;>
    simp [runAlwaysInvalid, attempt_code_generation_and_validation, attemptLoop,
      claudeAlwaysInvalid, validate_code_structure, findDynamicModel, walkQueue]

theorem attemptLoop_always_invalid (claude gemini : Nat → Res PyParse)
    (maxR : Nat)
    (H : ∀ i, ∃ c, claude i = .ok c ∧ (validate_code_structure c).isSome) :
    ∀ (remaining : Nat) (st : RefState) (cc gc : Nat) (log : List RoundLog),
      (attemptLoop claude gemini maxR remaining st cc gc log).result
          = .err ("Failed to generate valid code after "
              ++ toString maxR ++ " attempts.")
      ∧ (attemptLoop claude gemini maxR remaining st cc gc log).claudeCalls
          = cc + remaining
      ∧ (attemptLoop claude gemini maxR remaining st cc gc log).geminiCalls = gc := by
  intro remaining
  induction remaining with
  | zero => intro st cc gc log; exact ⟨rfl, rfl, rfl⟩
  | succ n ih =>
    intro st cc gc log
    obtain ⟨c, hc, hv⟩ := H cc
    rw [Option.isSome_iff_exists] at hv
    obtain ⟨verr, hverr⟩ := hv
    rw [attemptLoop]
    simp only [hc, hverr]
    cases hsr : st.isRefinement with
    | true =>
      simp only [hsr, if_true]
      have h := ih st (cc + 1) gc (log ++ [⟨false, true, false⟩])
      refine ⟨h.1, ?_, h.2.2⟩
      rw [h.2.1]
      omega
    | false =>
      simp only [hsr, Bool.false_eq_true, if_false]
      have h := ih ⟨true, c, verr⟩ (cc + 1) gc (log ++ [⟨false, true, false⟩])
      refine ⟨h.1, ?_, h.2.2⟩
      rw [h.2.1]
      omega

/-- C2 (amended): against a primary provider stub that always returns
validation-failing code (and never raises), the retry loop always
terminates: it makes exactly `maxRetries` provider calls — all to the
primary, none to the fallback — and then fails with the exhaustion
exception; but that exception carries the fixed message "Failed to
generate valid code after N attempts.", which does NOT surface the last
validation reason. -/
theorem exhaustion_exact_calls (claude gemini : Nat → Res PyParse)
    (maxRetries : Nat) (isRef : Bool) (origCode : PyParse) (errMsg : String)
    (H : ∀ i, ∃ c, claude i = .ok c ∧ (validate_code_structure c).isSome) :
    (attempt_code_generation_and_validation
        claude gemini maxRetries isRef origCode errMsg).result
      = .err ("Failed to generate valid code after "
          ++ toString maxRetries ++ " attempts.")
    ∧ (attempt_code_generation_and_validation
        claude gemini maxRetries isRef origCode errMsg).claudeCalls = maxRetries
    ∧ (attempt_code_generation_and_validation
        claude gemini maxRetries isRef origCode errMsg).geminiCalls = 0 := by
  have h := attemptLoop_always_invalid claude gemini maxRetries H maxRetries
    ⟨isRef, origCode, errMsg⟩ 0 0 []
  refine ⟨h.1, ?_, h.2.2⟩
  rw [attempt_code_generation_and_validation, h.2.1]
  omega

/-- C2 amended-claim witness: the concrete always-invalid stub makes
exactly the default three primary calls, zero fallback calls, and ends
with the fixed exhaustion message. -/
theorem exhaustion_exact_calls_witness :
    runAlwaysInvalid.result = .err "Failed to generate valid code after 3 attempts."
    ∧ runAlwaysInvalid.claudeCalls = 3
    ∧ runAlwaysInvalid.geminiCalls = 0 := by
  have h := exhaustion_exact_calls claudeAlwaysInvalid geminiUnused 3 false
    (.parsed []) ""
    (fun i => ⟨.parsed [], rfl,
      by simp [validate_code_structure, findDynamicModel, walkQueue]⟩)
  have hs : ("Failed to generate valid code after " ++ toString (3 : Nat) ++ " attempts.")
      = "Failed to generate valid code after 3 attempts." := by rfl
  rw [hs] at h
  exact h

/-- C2 counterexample: at exhaustion the raised message is the fixed
"Failed to generate valid code after 3 attempts." — the last validation
reason ("DynamicModel class definition not found.", the reason produced in
every round of this run) is not contained in it, refuting the claim's
"surfacing the last validation reason". -/
theorem exhaustion_message_lacks_reason :
    runAlwaysInvalid.result = .err "Failed to generate valid code after 3 attempts."
    ∧ validate_code_structure (.parsed [])
        = some "DynamicModel class definition not found."
    ∧ ¬ List.IsInfix ("DynamicModel class definition not found.").data
        ("Failed to generate valid code after 3 attempts.").data := by
  refine ⟨?_, ?_, ?_⟩
  · simp only [runAlwaysInvalid, attempt_code_generation_and_validation, attemptLoop,
      claudeAlwaysInvalid, validate_code_structure, findDynamicModel, walkQueue]
    rfl
  · simp [validate_code_structure, findDynamicModel, walkQueue]
  · decide

/-- C5 counterexample: with every stage succeeding and the generated
model's `evaluate` fabricating the non-empty all-1.0 dictionary, the
`ml_service.py` harness cited by the claim reports exactly that fabricated
dictionary in the training summary — no recomputation from raw predictions
happens in it. (The interactive pipeline's harness on the same inputs
reports the recomputed metrics instead, which here differ from the
fabricated ones.) -/
theorem ml_service_keeps_perfect_metrics :
    (MLService.train_model sReady oPerfect).2 = .ok ⟨[("accuracy", .num 1)], []⟩
    ∧ (MLService.train_model sReady oPerfect).1.training_summary
        = some ⟨[("accuracy", .num 1)], []⟩
    ∧ (Pipeline.train_model sReady oPerfect).2
        = .ok ⟨sanityMetrics (some "classification") [0, 1] [0, 0], []⟩
    ∧ sanityMetrics (some "classification") [0, 1] [0, 0]
        ≠ [("accuracy", .num 1)] := by
  refine ⟨rfl, rfl, rfl, ?_⟩
  intro heq
  have h4 : (sanityMetrics (some "classification") [0, 1] [0, 0]).length = 4 := rfl
  rw [heq] at h4
  simp at h4

/-- C5 (amended): the metric sanity check exists in the
`interactive_ml_pipeline.py` implementation of the harness (not in the
`ml_service.py` one, which stores the evaluate stage's metrics unchanged):
there, whenever the evaluate stage returns a non-empty dictionary in which
every numeric value equals exactly 1.0 and the model's raw predictions are
obtainable, the reported training summary contains the metrics recomputed
from those predictions against the target column with the fixed sklearn
formulas, in place of the suspicious perfect scores. -/
theorem pipeline_substitutes_verified_metrics
    (s : MLState) (o : DynOutcome) (df : DataFrame) (t : String) (obj : PyObject)
    (tcol : Column) (ms fi : Metrics) (yp : List ℚ)
    (hdf : s.csv.df = some df) (ht : s.target_column = some t)
    (hdm : s.dynamic_model = some obj) (hfc : findCol df t = some tcol)
    (hmeth : (trainMissingMethods obj).isEmpty = true)
    (hfit : o.fitErr = none) (htrf : o.transformErr = none)
    (htrn : o.trainErr = none) (heval : o.evalRes = .ok ms)
    (hperf : allPerfect ms = true) (hne : ms ≠ [])
    (hpred : o.predictRes = .ok yp) (hfeat : o.featRes = .ok fi) :
    (Pipeline.train_model s o).2
      = .ok ⟨sanityMetrics s.problem_type tcol.values yp, fi⟩
    ∧ (Pipeline.train_model s o).1.training_summary
        = some ⟨sanityMetrics s.problem_type tcol.values yp, fi⟩ := by
  have hmetr : pipelineEvalMetrics s.problem_type tcol.values ms o.predictRes
      = sanityMetrics s.problem_type tcol.values yp := by
    have hemp : ms.isEmpty = false := by simp [List.isEmpty_eq_false, hne]
    simp [pipelineEvalMetrics, hperf, hemp, hpred]
  rw [hpred] at hmetr
  rw [Pipeline.train_model]
  simp only [hdf, ht, hdm, hfc, hmeth, hfit, htrf, htrn, heval, hfeat, hpred,
    Bool.not_true, Bool.false_eq_true, if_false, hmetr]
  exact ⟨trivial, trivial⟩

/-- C5 amended-claim witness: the amended theorem applied to the concrete
all-perfect run. -/
theorem pipeline_substitutes_verified_metrics_witness :
    (Pipeline.train_model sReady oPerfect).2
      = .ok ⟨sanityMetrics sReady.problem_type [0, 1] [0, 0], []⟩ :=
  (pipeline_substitutes_verified_metrics sReady oPerfect csvTwo "label" objAllGood
    ⟨"label", true, [0, 1]⟩ [("accuracy", .num 1)] [] [0, 0]
    rfl rfl rfl rfl rfl rfl rfl rfl rfl rfl (by decide) rfl rfl).1

end AgentEngine
